import Mathlib

/-
Verification of the core logic of the nchelpers package:

* the attribute-indirection resolver of `CFDataset.__getattribute__`
  (with cycle detection supplied by the `prevent_infinite_recursion`
  decorator in `nchelpers/decorators.py`),
* the time-scale and resolution classifier of `nchelpers/date_utils.py`,
* the climatology and time-bounds locator and the multi-year-mean
  detector of `CFDataset`,
* the product-type classifier predicates of `CFDataset`, and
* the CMOR-style filename builder `cmor_type_filename`.

Each definition is a shallow embedding of the corresponding Python
function or property; doc comments point at the embedded source.
External collaborators (the netCDF storage engine, `num2date` calendar
arithmetic) are treated as data supplied on the dataset model, which is
how the specification scopes them as well.
-/

deriving instance DecidableEq for Except

namespace Nchelpers

/-- Exception kinds observable from the embedded code.  `cfAttributeError`
and `cfValueError` are the package-defined exception classes of
`nchelpers/exceptions.py` (both derived from `CFException`).  The
remaining constructors are Python builtin exceptions surfaced by the
code: `valueError`, `keyError` and `indexError` are raised by builtin
operations, `attributeError` by plain attribute lookup, and
`runtimeCycle` is the builtin `RuntimeError` raised by the
`prevent_infinite_recursion` decorator.  `fuelExhausted` is an artifact
of the fuel-indexed embedding of the recursive resolver and is shown
unreachable at the fuel used in every theorem below. -/
inductive Err where
  | cfAttributeError
  | cfValueError
  | valueError
  | keyError
  | indexError
  | attributeError
  | runtimeCycle
  | fuelExhausted
deriving DecidableEq

/-- True for the package-defined exception classes (the `CFException`
family of `nchelpers/exceptions.py`), false for Python builtins. -/
def Err.is_package_defined : Err → Bool
  | .cfAttributeError => true
  | .cfValueError => true
  | _ => false

/-! ## Attribute indirection (`CFDataset.__getattribute__` and helpers)

Attribute names and string values are modelled as `List Char` so that
the marker test of `_indirection_info` (Python `value[0] == '@'`, then
`value[1:]`) is an exact match on the character list. -/

/-- A Python attribute value: a string or some non-string value
(modelled by an integer, enough to record that the `isinstance` test of
`_indirection_info` fails). -/
inductive PyVal where
  | str (s : List Char)
  | num (n : Int)
deriving DecidableEq

/-- Embeds `_indirection_info` (`nchelpers/__init__.py:140-152`):

    if isinstance(value, six.string_types) and value[0] == '@':
        return True, value[1:]
    return False, None

For a string value, `value[0]` on the empty string raises `IndexError`;
that is embedded faithfully here. -/
def indirection_info : PyVal → Except Err (Bool × Option (List Char))
  | .str [] => .error .indexError
  | .str (c :: cs) => if c = '@' then .ok (true, some cs) else .ok (false, none)
  | .num _ => .ok (false, none)

/-- The attribute store of one object: an association list from
attribute name to stored (direct) value; first binding wins, mirroring
Python attribute lookup. -/
abbrev Attrs := List (List Char × PyVal)

/-- Plain attribute lookup, i.e. `super().__getattribute__(name)`:
the stored value, no indirection processing. -/
def lookup_attr : Attrs → List Char → Option PyVal
  | [], _ => none
  | (k, v) :: rest, name => if k = name then some v else lookup_attr rest name

/-- Embeds `CFDataset.get_direct_value` (`nchelpers/__init__.py:328-334`):
returns the stored value, raising `AttributeError` when absent. -/
def get_direct_value (attrs : Attrs) (name : List Char) : Except Err PyVal :=
  match lookup_attr attrs name with
  | none => .error .attributeError
  | some v => .ok v

/-- Embeds `CFDataset.is_indirected` (`nchelpers/__init__.py:321-326`):
`_indirection_info(self.get_direct_value(name))[0]`. -/
def is_indirected (attrs : Attrs) (name : List Char) : Except Err Bool :=
  match get_direct_value attrs name with
  | .error e => .error e
  | .ok v =>
    match indirection_info v with
    | .error e => .error e
    | .ok (b, _) => .ok b

/-- Embeds `CFDataset.__getattribute__` (`nchelpers/__init__.py:336-373`)
together with the `prevent_infinite_recursion` decorator
(`nchelpers/decorators.py:5-32`).

`seen` is the set of in-progress `name` arguments of the current call
chain (the object is fixed, so the decorator key `(self, name)` reduces
to `name`); re-entering a name in `seen` raises the decorator
`RuntimeError`.  For an indirect value `@target`:

* if `target` has no stored value, the `AttributeError` of the
  existence check is caught and the original marker string is returned;
* otherwise resolution recurses on `target` through the guarded
  `getattr`.

The `fuel` argument only bounds the recursion depth for Lean; the
top-level `resolve` supplies `attrs.length + 1` fuel, which the
theorems below never exhaust because every recursive step adds a
distinct stored attribute name to `seen`. -/
def resolve_fuel : Nat → Attrs → List (List Char) → List Char → Except Err PyVal
  | 0, _, _, _ => .error .fuelExhausted
  | fuel + 1, attrs, seen, name =>
    if name ∈ seen then .error .runtimeCycle
    else
      match lookup_attr attrs name with
      | none => .error .attributeError
      | some v =>
        match indirection_info v with
        | .error e => .error e
        | .ok (true, some target) =>
          match lookup_attr attrs target with
          | none => .ok v
          | some _ => resolve_fuel fuel attrs (name :: seen) target
        | .ok _ => .ok v

/-- Resolution of an attribute with indirection processing: what
`getattr(cf, name)` computes on a `CFDataset`, starting from an empty
per-chain visited set. -/
def resolve (attrs : Attrs) (name : List Char) : Except Err PyVal :=
  resolve_fuel (attrs.length + 1) attrs [] name

/-! ## Time scales and resolution labels (`nchelpers/date_utils.py`)

Numeric time values are modelled as rationals: the Python code computes
with exact comparisons on these quantities. -/

/-- The four time scales accepted by `time_scale`
(`date_utils.py:8-19`), i.e. the keys of `seconds_per_unit`. -/
inductive TScale where
  | seconds
  | minutes
  | hours
  | days
deriving DecidableEq

/-- The `seconds_per_unit` table (`date_utils.py:51-56`). -/
def seconds_per_unit : TScale → ℚ
  | .seconds => 1
  | .minutes => 60
  | .hours => 3600
  | .days => 86400

/-- Embeds `time_to_seconds` (`date_utils.py:59-66`); the unknown-unit
`CFValueError` branch is unreachable because `TScale` enumerates the
table keys. -/
def time_to_seconds (x : ℚ) (units : TScale) : ℚ :=
  x * seconds_per_unit units

/-- Embeds `seconds_to_time` (`date_utils.py:69-76`). -/
def seconds_to_time (s : ℚ) (units : TScale) : ℚ :=
  s / seconds_per_unit units

/-- Embeds `time_scale` (`date_utils.py:8-19`): the units string must
match the anchored regex `(days|hours|minutes|seconds) since.*`, else
`CFValueError`.  (The `units`-attribute-missing `CFAttributeError`
branch is not modelled: the dataset model below stores units as a total
field, matching the assertion in `CFDataset.time_var` that the time
variable has `units`.) -/
def time_scale (units : String) : Except Err TScale :=
  if "days since".data.isPrefixOf units.data then .ok .days
  else if "hours since".data.isPrefixOf units.data then .ok .hours
  else if "minutes since".data.isPrefixOf units.data then .ok .minutes
  else if "seconds since".data.isPrefixOf units.data then .ok .seconds
  else .error .cfValueError

/-- Embeds `resolution_standard_name` (`date_utils.py:22-48`): the
first matching rule, in source order, labels a step size in seconds. -/
def resolution_standard_name (seconds : ℚ) : String :=
  match ([1, 2, 5, 15, 30] : List ℕ).find?
      (fun m => seconds == time_to_seconds m .minutes) with
  | some m => toString m ++ "-minute"
  | none =>
  match ([1, 3, 6, 12] : List ℕ).find?
      (fun h => seconds == time_to_seconds h .hours) with
  | some h => toString h ++ "-hourly"
  | none =>
  if seconds = time_to_seconds 1 .days then "daily"
  else if time_to_seconds 28 .days ≤ seconds ∧ seconds ≤ time_to_seconds 31 .days then
    "monthly"
  else if time_to_seconds 88 .days ≤ seconds ∧ seconds ≤ time_to_seconds 92 .days then
    "seasonal"
  else
    match ([360, 365, 366] : List ℕ).find?
        (fun d => seconds == time_to_seconds d .days) with
    | some _ => "yearly"
    | none => "other"

/-- Successive differences, `np.diff`. -/
def diffs (l : List ℚ) : List ℚ :=
  (l.zip l.tail).map (fun p => p.2 - p.1)

/-- `np.median`: middle element of the sorted list, or the mean of the
two middle elements when the length is even.  `np.median` of an empty
array is nan; that case is never reached in the properties below, and
the embedding returns 0 there. -/
def median (l : List ℚ) : ℚ :=
  let s := l.mergeSort (fun a b => a ≤ b)
  let n := s.length
  if n % 2 = 1 then s.getD (n / 2) 0
  else ((s.getD (n / 2 - 1) 0) + (s.getD (n / 2) 0)) / 2

/-! ## The dataset model

The classifier code reads, from the externally owned netCDF dataset:
the time variable (its `units`, `calendar`, `bounds` and `climatology`
attributes, its numeric sample values, and their `num2date` view), the
mapping from variable names to two-column bounds arrays, the global
`frequency` attribute, and the `strict_metadata` option.  Calendar
arithmetic (`num2date`/`date2num`/`relativedelta`) is an external
collaborator; the `dates` field and the `add_one_month` field carry its
results as data. -/

/-- The month and day of one `num2date` sample (the only components the
heuristics of `is_multi_year_mean` inspect). -/
structure MonthDay where
  month : Nat
  day : Nat
deriving DecidableEq

/-- The time variable of a dataset (`CFDataset.time_var`): attributes
and values.  `dates` is the `num2date` view of `values`
(`CFDataset.time_steps['datetime']`). -/
structure TimeVar where
  units : String
  calendar : String
  bounds : Option String
  climatology : Option String
  values : List ℚ
  dates : List MonthDay

/-- The dataset model.  `time_var` is `none` when no axis is attributed
with time information (`CFDataset.time_var` raises `CFValueError`).
`variables` maps a variable name to its two-column bounds rows `(lower,
upper)`; only this bounds-shaped view of the file variables is read by
the code under verification.  `add_one_month` is the external
`date2num(num2date(x) + relativedelta(months=1))` round trip used by
`time_bounds_extrema`. -/
structure CFDs where
  strict_metadata : Bool
  time_var : Option TimeVar
  «variables» : List (String × List (ℚ × ℚ))
  frequency : Option String
  add_one_month : ℚ → ℚ

/-- Lookup of `self.variables[name]` as an optional value
(`name in self.variables` is `isSome` of this). -/
def lookupVar (ds : CFDs) (name : String) : Option (List (ℚ × ℚ)) :=
  ds.«variables».lookup name

/-! ## Climatology / time-bounds locator (`CFDataset`) -/

/-- Embeds `time_bounds_var_name` (`nchelpers/__init__.py:1133-1168`).

The strict rule reads `time_var.bounds` and then tests
`hasattr(self.variables, var_name)`.  `self.variables` is a dict-like
mapping object, and `hasattr` tests for a Python *attribute* of that
object, not for key membership, so the test is false for any ordinary
variable name and the strict rule never returns a name; it is therefore
embedded as falling through.  In strict mode the heuristic search is
skipped and the result is `None`. -/
def time_bounds_var_name (ds : CFDs) : Option String :=
  match ds.time_var with
  | none => none
  | some _ =>
    if ds.strict_metadata then none
    else ["time_bounds", "time_bnds"].find? (fun n => (lookupVar ds n).isSome)

/-- Embeds the local predicate `multi_year_bounds` of
`climatology_bounds_var_name` (`nchelpers/__init__.py:1211-1223`): the
bounds array is non-empty and every interval spans at least 720 days. -/
def multi_year_bounds (rows : List (ℚ × ℚ)) (scale : TScale) : Bool :=
  !rows.isEmpty &&
    rows.all (fun r =>
      time_to_seconds 720 .days ≤ time_to_seconds r.2 scale - time_to_seconds r.1 scale)

/-- Embeds the final heuristic loop of `climatology_bounds_var_name`
(`nchelpers/__init__.py:1239-1248`): for each likely time-bounds name,
the body first evaluates `time_scale(time_var)` (unconditionally, so a
malformed units string raises `CFValueError` here) and then returns the
name if the variable exists and brackets multi-year periods. -/
def climo_heuristic_c (ds : CFDs) (tv : TimeVar) : Except Err (Option String) :=
  match time_scale tv.units with
  | .error e => .error e
  | .ok scale =>
    .ok (["time_bounds", "time_bnds"].find? (fun n =>
      match lookupVar ds n with
      | some rows => multi_year_bounds rows scale
      | none => false))

/-- Embeds `climatology_bounds_var_name`
(`nchelpers/__init__.py:1180-1251`):

1. no time axis: `None`;
2. the time axis has a `climatology` attribute: its value, returned
   without checking that the named variable exists, in strict and
   non-strict mode alike;
3. strict mode: `None`;
4. a variable with a likely climatology-bounds name exists: that name;
5. the time axis has a `bounds` attribute naming an existing variable
   whose every interval spans at least 720 days: that name
   (`time_scale` is evaluated first and may raise);
6. the loop of `climo_heuristic_c`;
7. otherwise `None`. -/
def climatology_bounds_var_name (ds : CFDs) : Except Err (Option String) :=
  match ds.time_var with
  | none => .ok none
  | some tv =>
    match tv.climatology with
    | some c => .ok (some c)
    | none =>
      if ds.strict_metadata then .ok none
      else
        match ["climatology_bounds", "climatology_bnds",
               "climo_bounds", "climo_bnds"].find?
                (fun n => (lookupVar ds n).isSome) with
        | some n => .ok (some n)
        | none =>
          match tv.bounds with
          | some bname =>
            (match time_scale tv.units with
             | .error e => .error e
             | .ok scale =>
               match lookupVar ds bname with
               | some rows =>
                 if multi_year_bounds rows scale then .ok (some bname)
                 else climo_heuristic_c ds tv
               | none => climo_heuristic_c ds tv)
          | none => climo_heuristic_c ds tv

/-! ## Multi-year-mean detection (`CFDataset.is_multi_year_mean`) -/

/-- One month check of the local `check_monthly`
(`nchelpers/__init__.py:676-680`): the sample falls in the given month
on day 14, 15 or 16. -/
def month_pred (m : Nat) (d : MonthDay) : Bool :=
  d.month == m && (d.day == 14 || d.day == 15 || d.day == 16)

/-- One season check of the local `check_seasonal`
(`nchelpers/__init__.py:682-686`): the sample falls in the given month
on day 15, 16 or 17. -/
def season_pred (m : Nat) (d : MonthDay) : Bool :=
  d.month == m && (d.day == 15 || d.day == 16 || d.day == 17)

/-- The local `check_yearly` test (`nchelpers/__init__.py:688-691`):
the sample falls on Jun 30, Jul 1 or Jul 2. -/
def year_pred (d : MonthDay) : Bool :=
  (d.month == 6 && d.day == 30) || (d.month == 7 && (d.day == 1 || d.day == 2))

/-- The three interval-check kinds of `is_multi_year_mean`. -/
inductive CKind where
  | monthly
  | seasonal
  | yearly
deriving DecidableEq

/-- The per-sample predicates each check consumes, in order:
`check_monthly` consumes 12 samples (months 1..12), `check_seasonal` 4
samples (months 1, 4, 7, 10), `check_yearly` one sample. -/
def preds_of : CKind → List (MonthDay → Bool)
  | .monthly => (List.range 12).map (fun i => month_pred (i + 1))
  | .seasonal => [1, 4, 7, 10].map season_pred
  | .yearly => [year_pred]

/-- Runs one check over the shared sample iterator: each predicate
consumes the next sample; a failing predicate stops the check (the
Python `all` short-circuits).  `none` models the iterator exhausting,
which cannot happen for the sample counts in `check_intervals`. -/
def run_preds : List (MonthDay → Bool) → List MonthDay → Option (Bool × List MonthDay)
  | [], l => some (true, l)
  | _ :: _, [] => none
  | p :: ps, d :: rest => if p d then run_preds ps rest else some (false, rest)

/-- Runs the checks of one `check_intervals` entry in sequence over the
shared iterator of time samples (`nchelpers/__init__.py:706-708`);
all must pass. -/
def run_checks : List CKind → List MonthDay → Bool
  | [], _ => true
  | c :: cs, l =>
    match run_preds (preds_of c) l with
    | some (true, rest) => run_checks cs rest
    | some (false, _) => false
    | none => false

/-- The `check_intervals` table of `is_multi_year_mean`
(`nchelpers/__init__.py:693-702`), keyed by the suspicious time-sample
counts; a `KeyError` for any other count falls through to `False`. -/
def check_intervals (n : Nat) : Option (List CKind) :=
  ([(1, [CKind.yearly]),
    (4, [CKind.seasonal]),
    (12, [CKind.monthly]),
    (5, [CKind.seasonal, CKind.yearly]),
    (13, [CKind.monthly, CKind.yearly]),
    (16, [CKind.monthly, CKind.seasonal]),
    (17, [CKind.monthly, CKind.seasonal, CKind.yearly])] :
      List (Nat × List CKind)).lookup n

/-- Python truthiness of the optional string returned by
`climatology_bounds_var_name`: `None` and the empty string are falsy. -/
def opt_str_truthy : Option String → Bool
  | none => false
  | some s => !s.isEmpty

/-- Embeds `is_multi_year_mean` (`nchelpers/__init__.py:636-711`):
no time axis gives `False`; a truthy `climatology_bounds_var_name`
gives `True`; strict mode then gives `False`; otherwise the
suspicious-count and date-pattern heuristic decides. -/
def is_multi_year_mean (ds : CFDs) : Except Err Bool :=
  match ds.time_var with
  | none => .ok false
  | some tv =>
    match climatology_bounds_var_name ds with
    | .error e => .error e
    | .ok r =>
      if opt_str_truthy r then .ok true
      else if ds.strict_metadata then .ok false
      else
        match check_intervals tv.values.length with
        | none => .ok false
        | some checks => .ok (run_checks checks tv.dates)

/-! ## Time resolution (`CFDataset.time_resolution` and friends) -/

/-- Embeds `is_time_invariant` (`nchelpers/__init__.py:617-629`): a
dataset with a time axis is not time-invariant; without one, the
`frequency` attribute must equal `fx` (a missing attribute raises). -/
def is_time_invariant (ds : CFDs) : Except Err Bool :=
  match ds.time_var with
  | some _ => .ok false
  | none =>
    match ds.frequency with
    | some f => .ok (f == "fx")
    | none => .error .attributeError

/-- Embeds `time_step_size` (`nchelpers/__init__.py:1097-1103`): the
median of successive differences of the time values, converted to
seconds using the parsed time scale. -/
def time_step_size (ds : CFDs) : Except Err ℚ :=
  match ds.time_var with
  | none => .error .cfValueError
  | some tv =>
    match time_scale tv.units with
    | .error e => .error e
    | .ok scale => .ok (time_to_seconds (median (diffs tv.values)) scale)

/-- The sample-count-to-resolution dict of `time_resolution`
(`nchelpers/__init__.py:1109-1116`), written as the dict literal in
source order; `.get` with default `other`.  Note that the source dict
has no entry for a count of 16. -/
def mym_tres_list : List (Nat × String) :=
  [(12, "monthly"),
   (4, "seasonal"),
   (1, "yearly"),
   (5, "seasonal,yearly"),
   (13, "monthly,yearly"),
   (17, "monthly,seasonal,yearly")]

/-- Embeds `time_resolution` (`nchelpers/__init__.py:1105-1119`): for a
multi-year mean, the sample-count table; for a time-invariant dataset,
`fixed`; otherwise the step-size label.  (A multi-year mean always has
a time axis, so the `cfValueError` arm in the first branch is
unreachable.) -/
def time_resolution (ds : CFDs) : Except Err String :=
  match is_multi_year_mean ds with
  | .error e => .error e
  | .ok true =>
    match ds.time_var with
    | some tv => .ok ((mym_tres_list.lookup tv.values.length).getD "other")
    | none => .error .cfValueError
  | .ok false =>
    match is_time_invariant ds with
    | .error e => .error e
    | .ok true => .ok "fixed"
    | .ok false =>
      match time_step_size ds with
      | .error e => .error e
      | .ok s => .ok (resolution_standard_name s)

/-! ## Time-bounds extrema (`CFDataset.time_bounds_extrema`) -/

/-- Embeds `time_bounds_values` (`nchelpers/__init__.py:1171-1177`):
`ValueError` when no time-bounds variable is detectable, else the rows
of the named variable (`KeyError` if it does not exist). -/
def time_bounds_values (ds : CFDs) : Except Err (List (ℚ × ℚ)) :=
  match time_bounds_var_name ds with
  | none => .error .valueError
  | some name =>
    match lookupVar ds name with
    | none => .error .keyError
    | some rows => .ok rows

/-- Embeds `climatology_bounds_values` (`nchelpers/__init__.py:1254-1265`):
requires `is_multi_year_mean` and a non-`None`
`climatology_bounds_var_name`, then reads the rows of the named
variable (`KeyError` if it does not exist). -/
def climatology_bounds_values (ds : CFDs) : Except Err (List (ℚ × ℚ)) :=
  match is_multi_year_mean ds with
  | .error e => .error e
  | .ok false => .error .valueError
  | .ok true =>
    match climatology_bounds_var_name ds with
    | .error e => .error e
    | .ok none => .error .valueError
    | .ok (some name) =>
      match lookupVar ds name with
      | none => .error .keyError
      | some rows => .ok rows

/-- The bounds array `time_bounds_extrema` works on
(`nchelpers/__init__.py:1317-1320`): climatological bounds for a
multi-year mean, ordinary time bounds otherwise. -/
def selected_bounds_values (ds : CFDs) : Except Err (List (ℚ × ℚ)) :=
  match is_multi_year_mean ds with
  | .error e => .error e
  | .ok true => climatology_bounds_values ds
  | .ok false => time_bounds_values ds

/-- Embeds `time_bounds_extrema` (`nchelpers/__init__.py:1267-1347`).
The unadjusted extrema are `(bounds_values[0, 0], bounds_values[-1, 1])`
-- the lower bound of the *first* row and the upper bound of the *last*
row.  With `nominal`, a seasonal multi-year mean has both extrema
shifted forward one month; with `closed`, one second (in file time
units) is subtracted from the upper extremum. -/
def time_bounds_extrema (ds : CFDs) (nominal closed : Bool) : Except Err (ℚ × ℚ) :=
  match ds.time_var with
  | none => .error .cfValueError
  | some tv =>
    match selected_bounds_values ds with
    | .error e => .error e
    | .ok [] => .error .indexError
    | .ok (r :: rs) =>
      let extrema := (r.1, ((r :: rs).getLast?.getD r).2)
      let step2 : Except Err (ℚ × ℚ) :=
        if nominal then
          match is_multi_year_mean ds with
          | .error e => .error e
          | .ok true =>
            match time_resolution ds with
            | .error e => .error e
            | .ok tr =>
              .ok (if tr = "seasonal" then
                     (ds.add_one_month extrema.1, ds.add_one_month extrema.2)
                   else extrema)
          | .ok false => .ok extrema
        else .ok extrema
      match step2 with
      | .error e => .error e
      | .ok ex2 =>
        if closed then
          match time_scale tv.units with
          | .error e => .error e
          | .ok scale => .ok (ex2.1, ex2.2 - seconds_to_time 1 scale)
        else .ok ex2

/-! ## Product-type classifier (`CFDataset.is_*_output` properties)

The predicates read the global attributes `project_id`, `product`,
`forcing_type`, `hydromodel__forcing_type` and `input_product`; a fixed
assignment of those five attributes is modelled as a record of strings.
`metadata.project` resolves the alias `project` to `project_id` for
each of the three recognized project ids and raises `CFValueError` for
any other id (`CFDataset.UnifiedMetadata.__getattr__`,
`nchelpers/__init__.py:452-489`). -/

/-- The five attributes the product-type predicates read. -/
structure ProductAttrs where
  project_id : String
  product : String
  forcing_type : String
  hydromodel__forcing_type : String
  input_product : String

/-- Embeds `self.metadata.project`: the `project_id` value, after
validating that it is one of the three recognized project ids. -/
def metadata_project (a : ProductAttrs) : Except Err String :=
  if a.project_id = "CMIP3" ∨ a.project_id = "CMIP5" ∨ a.project_id = "other"
  then .ok a.project_id
  else .error .cfValueError

/-- Embeds `is_gcm_derivative` (`nchelpers/__init__.py:713-717`). -/
def is_gcm_derivative (a : ProductAttrs) : Except Err Bool :=
  match metadata_project a with
  | .error e => .error e
  | .ok p => .ok (p == "CMIP3" || p == "CMIP5")

/-- Embeds `is_other` (`nchelpers/__init__.py:719-722`). -/
def is_other (a : ProductAttrs) : Except Err Bool :=
  match metadata_project a with
  | .error e => .error e
  | .ok p => .ok (p == "other")

/-- Embeds `is_hydromodel_output` (`nchelpers/__init__.py:734-738`). -/
def is_hydromodel_output (a : ProductAttrs) : Bool :=
  a.product == "hydrological model output"

/-- Embeds `is_streamflow_model_output` (`nchelpers/__init__.py:755-759`). -/
def is_streamflow_model_output (a : ProductAttrs) : Bool :=
  a.product == "streamflow model output"

/-- Embeds `is_climdex_output` (`nchelpers/__init__.py:776-779`). -/
def is_climdex_output (a : ProductAttrs) : Bool :=
  a.product == "CLIMDEX output"

/-- Embeds `is_unprocessed_gcm_output` (`nchelpers/__init__.py:724-727`). -/
def is_unprocessed_gcm_output (a : ProductAttrs) : Except Err Bool :=
  match is_gcm_derivative a with
  | .error e => .error e
  | .ok g => .ok (g && a.product == "output")

/-- Embeds `is_downscaled_output` (`nchelpers/__init__.py:729-732`). -/
def is_downscaled_output (a : ProductAttrs) : Except Err Bool :=
  match is_gcm_derivative a with
  | .error e => .error e
  | .ok g => .ok (g && a.product == "downscaled output")

/-- Embeds `is_hydromodel_dgcm_output` (`nchelpers/__init__.py:740-746`). -/
def is_hydromodel_dgcm_output (a : ProductAttrs) : Except Err Bool :=
  match is_gcm_derivative a with
  | .error e => .error e
  | .ok g => .ok (g && is_hydromodel_output a && a.forcing_type == "downscaled gcm")

/-- Embeds `is_hydromodel_iobs_output` (`nchelpers/__init__.py:748-753`):
note it does not require a GCM derivative. -/
def is_hydromodel_iobs_output (a : ProductAttrs) : Except Err Bool :=
  .ok (is_hydromodel_output a && a.forcing_type == "gridded observations")

/-- Embeds `is_streamflow_model_dgcm_output` (`nchelpers/__init__.py:761-767`). -/
def is_streamflow_model_dgcm_output (a : ProductAttrs) : Except Err Bool :=
  match is_gcm_derivative a with
  | .error e => .error e
  | .ok g =>
    .ok (g && is_streamflow_model_output a &&
         a.hydromodel__forcing_type == "downscaled gcm")

/-- Embeds `is_streamflow_model_iobs_output`
(`nchelpers/__init__.py:769-774`): no GCM-derivative requirement. -/
def is_streamflow_model_iobs_output (a : ProductAttrs) : Except Err Bool :=
  .ok (is_streamflow_model_output a &&
       a.hydromodel__forcing_type == "gridded observations")

/-- Embeds `is_climdex_gcm_output` (`nchelpers/__init__.py:781-787`). -/
def is_climdex_gcm_output (a : ProductAttrs) : Except Err Bool :=
  match is_gcm_derivative a with
  | .error e => .error e
  | .ok g => .ok (g && is_climdex_output a && a.input_product == "output")

/-- Embeds `is_climdex_ds_gcm_output` (`nchelpers/__init__.py:789-795`). -/
def is_climdex_ds_gcm_output (a : ProductAttrs) : Except Err Bool :=
  match is_gcm_derivative a with
  | .error e => .error e
  | .ok g => .ok (g && is_climdex_output a && a.input_product == "downscaled output")

/-- Embeds `is_gridded_obs` (`nchelpers/__init__.py:797-800`). -/
def is_gridded_obs (a : ProductAttrs) : Except Err Bool :=
  match is_other a with
  | .error e => .error e
  | .ok o => .ok (o && a.product == "gridded observations")

/-- The closed set of mutually exclusive product types the nine
predicates recognize. -/
inductive ProductType where
  | unprocessedGcm
  | downscaled
  | hydromodelDgcm
  | hydromodelIobs
  | streamflowDgcm
  | streamflowIobs
  | climdexGcm
  | climdexDsGcm
  | griddedObs
deriving DecidableEq

/-- The predicate of each product type. -/
def product_pred : ProductType → ProductAttrs → Except Err Bool
  | .unprocessedGcm => is_unprocessed_gcm_output
  | .downscaled => is_downscaled_output
  | .hydromodelDgcm => is_hydromodel_dgcm_output
  | .hydromodelIobs => is_hydromodel_iobs_output
  | .streamflowDgcm => is_streamflow_model_dgcm_output
  | .streamflowIobs => is_streamflow_model_iobs_output
  | .climdexGcm => is_climdex_gcm_output
  | .climdexDsGcm => is_climdex_ds_gcm_output
  | .griddedObs => is_gridded_obs

/-! ## The filename builder (`cmor_type_filename`) -/

/-- The fixed ordered slot list of `cmor_type_filename`
(`nchelpers/__init__.py:110-122`). -/
def cmor_component_names : List String :=
  ["variable", "mip_table", "frequency", "downscaling_method",
   "hydromodel_method", "model", "experiment", "ensemble_member",
   "obs_dataset_id", "time_range", "geo_info"]

/-- Embeds `cmor_type_filename` (`nchelpers/__init__.py:97-126`).  The
keyword-argument dict is modelled as an association list from component
name to an optional string (`none` models a supplied `None` value; an
absent key behaves identically through `.get(cname, None)`).  The slots
of `cmor_component_names` whose looked-up value is present and
non-`None` are joined with the underscore separator, in slot order, and
the extension is appended. -/
def cmor_type_filename (extension : String)
    (component_values : List (String × Option String)) : String :=
  String.intercalate "_"
    (cmor_component_names.filterMap (fun c => (component_values.lookup c).join))
  ++ extension

/-! ## Definitions written from the specification text

These definitions follow the words of the specification (not the
source); the theorems below compare them against the embedded code. -/

/-- Modelled from the spec: the claimed multi-year-mean resolution
table, mapping 1 to yearly, 4 to seasonal, 12 to monthly, 5 to
seasonal,yearly, 13 to monthly,yearly, 16 to monthly,seasonal and 17 to
monthly,seasonal,yearly, and every other count to other. -/
def spec_mym_resolution (n : Nat) : String :=
  (([(1, "yearly"),
     (4, "seasonal"),
     (12, "monthly"),
     (5, "seasonal,yearly"),
     (13, "monthly,yearly"),
     (16, "monthly,seasonal"),
     (17, "monthly,seasonal,yearly")] : List (Nat × String)).lookup n).getD "other"

/-- The amended multi-year-mean resolution table: as claimed, except
that a count of 16 (absent from the source dict) maps to other. -/
def amended_mym_resolution (n : Nat) : String :=
  (([(1, "yearly"),
     (4, "seasonal"),
     (12, "monthly"),
     (5, "seasonal,yearly"),
     (13, "monthly,yearly"),
     (17, "monthly,seasonal,yearly")] : List (Nat × String)).lookup n).getD "other"

/-- Modelled from the spec: the claimed behaviour of the filename
builder, stated as a filter over the slot list -- emit exactly the
components from the fixed slot list whose values are present and
non-None, joined by the separator in that fixed order, with the
extension appended at the end. -/
def buildName_spec (extension : String)
    (component_values : List (String × Option String)) : String :=
  String.intercalate "_"
    ((cmor_component_names.filter
        (fun c => ((component_values.lookup c).join).isSome)).map
      (fun c => ((component_values.lookup c).join).getD ""))
  ++ extension

/-! ## Concrete instances used as counterexamples and witnesses -/

/-- An object with two attributes, `a` and `b`, that indirect to each
other (`a = "@b"`, `b = "@a"`). -/
def attrs_cyc : Attrs :=
  [(['a'], .str ['@', 'b']), (['b'], .str ['@', 'a'])]

/-- An object whose attribute `e` has the empty string as its direct
value. -/
def attrs_empty_str : Attrs :=
  [(['e'], .str [])]

/-- An object whose attribute `g` indirects to the nonexistent
attribute `q`. -/
def attrs_dangling : Attrs :=
  [(['g'], .str ['@', 'q'])]

/-- A multi-year-mean dataset with 16 time samples: its time axis
carries an explicit `climatology` attribute, so
`climatology_bounds_var_name` returns that value and
`is_multi_year_mean` is true without consulting the dates. -/
def ds16 : CFDs where
  strict_metadata := false
  time_var := some
    { units := "days since 1850-01-01 00:00:00"
      calendar := "standard"
      bounds := none
      climatology := some "climatology_bnds"
      values := (List.range 16).map (fun n => (n : ℚ))
      dates := [] }
  «variables» := []
  frequency := none
  add_one_month := id

/-- A multi-year-mean dataset whose climatological bounds rows are
stored out of time order: rows `[(10, 20), (0, 5)]`, so the minimum
lower bound is 0 and the maximum upper bound is 20, but the first row
lower bound is 10 and the last row upper bound is 5. -/
def ds_unsorted : CFDs where
  strict_metadata := false
  time_var := some
    { units := "days since 1850-01-01 00:00:00"
      calendar := "standard"
      bounds := none
      climatology := some "climatology_bnds"
      values := [15, 2]
      dates := [⟨1, 16⟩, ⟨1, 3⟩] }
  «variables» := [("climatology_bnds", [(10, 20), (0, 5)])]
  frequency := none
  add_one_month := id

/-- A dataset with 12 mid-month samples in calendar order and no
climatology or bounds metadata, whose time units string
(`milliseconds since ...`) is accepted by the external calendar
library but not by `time_scale`. -/
def ds_ms : CFDs where
  strict_metadata := false
  time_var := some
    { units := "milliseconds since 1850-01-01 00:00:00"
      calendar := "365_day"
      bounds := none
      climatology := none
      values := (List.range 12).map (fun n => (n : ℚ))
      dates := (List.range 12).map (fun m => ⟨m + 1, 15⟩) }
  «variables» := []
  frequency := none
  add_one_month := id

/-- A dataset with 12 mid-month samples in calendar order, no
climatology or bounds metadata, and well-formed time units. -/
def ds12 : CFDs where
  strict_metadata := false
  time_var := some
    { units := "days since 1850-01-01 00:00:00"
      calendar := "365_day"
      bounds := none
      climatology := none
      values := (List.range 12).map (fun n => (n : ℚ))
      dates := (List.range 12).map (fun m => ⟨m + 1, 15⟩) }
  «variables» := []
  frequency := none
  add_one_month := id

/-- A dataset whose time axis has `climatology = "foo"` while no
variable named `foo` exists. -/
def ds_foo : CFDs where
  strict_metadata := false
  time_var := some
    { units := "days since 1850-01-01 00:00:00"
      calendar := "standard"
      bounds := none
      climatology := some "foo"
      values := [0]
      dates := [⟨7, 1⟩] }
  «variables» := [("other_var", [])]
  frequency := none
  add_one_month := id

/-- A fixed attribute assignment classified as unprocessed GCM
output. -/
def pa_gcm : ProductAttrs where
  project_id := "CMIP5"
  product := "output"
  forcing_type := ""
  hydromodel__forcing_type := ""
  input_product := ""

/-- A component mapping exercising the filename builder: a foreign
component, a `None` component and out-of-order slots. -/
def cv_sample : List (String × Option String) :=
  [("model", some "ACCESS1-0"),
   ("variable", some "tasmax"),
   ("geo_info", none),
   ("experiment", some "historical")]

/-! ## Supporting lemmas -/

/-- A successful `lookup_attr` names a stored key. -/
theorem lookup_attr_isSome_of_eq_some {l : Attrs} {x : List Char} {v : PyVal}
    (h : lookup_attr l x = some v) : lookup_attr l x ≠ none := by
  simp [h]

/-- Two distinct names with stored values force at least two stored
attributes. -/
theorem two_le_length_of_lookups {l : Attrs} {a b : List Char}
    (hab : a ≠ b)
    (ha : lookup_attr l a ≠ none) (hb : lookup_attr l b ≠ none) :
    2 ≤ l.length := by
  match l with
  | [] => exact absurd rfl ha
  | [(k, v)] =>
    exfalso
    by_cases hka : k = a
    · by_cases hkb : k = b
      · exact hab (hka ▸ hkb ▸ rfl)
      · simp [lookup_attr, hkb] at hb
    · simp [lookup_attr, hka] at ha
  | _ :: _ :: _ => simp [List.length]

/-- Resolving one member of a mutual-indirection pair walks
`a -> b -> a` and trips the recursion guard on the second visit of
`a`. -/
theorem resolve_mutual_cycle {attrs : Attrs} {a b : List Char}
    (hab : a ≠ b)
    (ha : lookup_attr attrs a = some (.str ('@' :: b)))
    (hb : lookup_attr attrs b = some (.str ('@' :: a))) :
    resolve attrs a = .error .runtimeCycle := by
  have hlen : 2 ≤ attrs.length :=
    two_le_length_of_lookups hab
      (lookup_attr_isSome_of_eq_some ha) (lookup_attr_isSome_of_eq_some hb)
  obtain ⟨m, hm⟩ : ∃ m, attrs.length = m + 2 := ⟨attrs.length - 2, by omega⟩
  have hba : ¬ (b = a) := fun h => hab h.symm
  unfold resolve
  rw [hm]
  show resolve_fuel (m + 2 + 1) attrs [] a = .error .runtimeCycle
  simp [resolve_fuel, ha, hb, indirection_info, hba]

/-! ## Claim C3 -/

/-- C3, counterexample: on the object where `a = "@b"` and `b = "@a"`,
resolving either attribute raises the builtin `RuntimeError` of the
recursion guard, which is not one of the package-defined error kinds
(the `CFException` family) -- so the claim that a package-defined
`CycleError` is raised fails at this input. -/
theorem c3_counterexample :
    resolve attrs_cyc ['a'] = .error .runtimeCycle ∧
    resolve attrs_cyc ['b'] = .error .runtimeCycle ∧
    Err.is_package_defined .runtimeCycle = false := by
  refine ⟨by decide, by decide, by decide⟩

/-- C3, amended: for every object with two attributes whose values each
indirect to the other, resolving either attribute terminates with the
builtin `RuntimeError` raised by the `prevent_infinite_recursion`
guard (the package defines no error class for cycles), rather than
looping forever. -/
theorem c3_mutual_indirection_raises (attrs : Attrs) (a b : List Char)
    (hab : a ≠ b)
    (ha : lookup_attr attrs a = some (.str ('@' :: b)))
    (hb : lookup_attr attrs b = some (.str ('@' :: a))) :
    resolve attrs a = .error .runtimeCycle ∧
    resolve attrs b = .error .runtimeCycle :=
  ⟨resolve_mutual_cycle hab ha hb,
   resolve_mutual_cycle (fun h => hab h.symm) hb ha⟩

/-- C3, witness: the amended theorem applied to the concrete
mutual-indirection object. -/
theorem c3_witness :
    resolve attrs_cyc ['a'] = .error Err.runtimeCycle ∧
    resolve attrs_cyc ['b'] = .error Err.runtimeCycle :=
  c3_mutual_indirection_raises attrs_cyc ['a'] ['b']
    (by decide) (by decide) (by decide)

/-! ## Claim C4 -/

/-- C4: the code contradicts the claim (and the docstring of
`_indirection_info`) at an attribute whose direct value is the empty
string: `value[0]` raises `IndexError`, so both `is_indirected` and
ordinary attribute access raise instead of reporting the value as not
indirected and returning it unchanged. -/
theorem c4_empty_string_raises :
    is_indirected attrs_empty_str ['e'] = .error .indexError ∧
    resolve attrs_empty_str ['e'] = .error .indexError ∧
    get_direct_value attrs_empty_str ['e'] = .ok (.str []) := by
  refine ⟨by decide, by decide, by decide⟩

/-! ## Claim C5 -/

/-- C5: for every attribute whose direct value is the marker-prefixed
string `@target` where no attribute named `target` exists on the same
object, resolution returns the original marker-prefixed string
unchanged, and `is_indirected` still reports true. -/
theorem c5_dangling_indirection (attrs : Attrs) (name target : List Char)
    (hname : lookup_attr attrs name = some (.str ('@' :: target)))
    (htarget : lookup_attr attrs target = none) :
    resolve attrs name = .ok (.str ('@' :: target)) ∧
    is_indirected attrs name = .ok true := by
  constructor
  · unfold resolve
    simp [resolve_fuel, hname, htarget, indirection_info]
  · simp [is_indirected, get_direct_value, hname, indirection_info]

/-- C5, witness: the theorem applied to the concrete object whose
attribute `g` indirects to the nonexistent `q`. -/
theorem c5_witness :
    resolve attrs_dangling ['g'] = .ok (.str ['@', 'q']) ∧
    is_indirected attrs_dangling ['g'] = .ok true :=
  c5_dangling_indirection attrs_dangling ['g'] ['q'] (by decide) (by decide)

/-! ## Claim C8 -/

/-- The `BEq` test on rationals is the decidable equality test. -/
theorem rat_beq_decide (a b : ℚ) : (a == b) = decide (a = b) := rfl

/-- C8: the resolution-label function returns `daily` for exactly
86400 seconds; `monthly` on the closed interval from 28 to 31 days;
`seasonal` on the closed interval from 88 to 92 days; `yearly` at
exactly 360, 365 and 366 days; the minute labels at the exact minute
multiples 1, 2, 5, 15, 30; the hourly labels at the exact hour
multiples 1, 3, 6, 12; and `other` for every other value. -/
theorem c8_resolution_standard_name :
    (∀ x : ℚ, 28 * 86400 ≤ x → x ≤ 31 * 86400 →
      resolution_standard_name x = "monthly") ∧
    (∀ x : ℚ, 88 * 86400 ≤ x → x ≤ 92 * 86400 →
      resolution_standard_name x = "seasonal") ∧
    resolution_standard_name 86400 = "daily" ∧
    resolution_standard_name (360 * 86400) = "yearly" ∧
    resolution_standard_name (365 * 86400) = "yearly" ∧
    resolution_standard_name (366 * 86400) = "yearly" ∧
    resolution_standard_name (1 * 60) = "1-minute" ∧
    resolution_standard_name (2 * 60) = "2-minute" ∧
    resolution_standard_name (5 * 60) = "5-minute" ∧
    resolution_standard_name (15 * 60) = "15-minute" ∧
    resolution_standard_name (30 * 60) = "30-minute" ∧
    resolution_standard_name (1 * 3600) = "1-hourly" ∧
    resolution_standard_name (3 * 3600) = "3-hourly" ∧
    resolution_standard_name (6 * 3600) = "6-hourly" ∧
    resolution_standard_name (12 * 3600) = "12-hourly" ∧
    (∀ x : ℚ,
      x ∉ ({60, 120, 300, 900, 1800, 3600, 10800, 21600, 43200, 86400,
            360 * 86400, 365 * 86400, 366 * 86400} : Set ℚ) →
      ¬(28 * 86400 ≤ x ∧ x ≤ 31 * 86400) →
      ¬(88 * 86400 ≤ x ∧ x ≤ 92 * 86400) →
      resolution_standard_name x = "other") := by
  refine ⟨?_, ?_, ?_, ?_, ?_, ?_, ?_, ?_, ?_, ?_, ?_, ?_, ?_, ?_, ?_, ?_⟩
  · intro x h1 h2
    norm_num at h1 h2
    have k : ∀ c : ℚ, c < 2419200 → decide (x = c) = false := fun c hc =>
      decide_eq_false (fun h => by rw [h] at h1; linarith)
    simp only [resolution_standard_name, time_to_seconds, seconds_per_unit,
      rat_beq_decide, List.find?]
    norm_num
    rw [k 60 (by norm_num), k 120 (by norm_num), k 300 (by norm_num),
        k 900 (by norm_num), k 1800 (by norm_num), k 3600 (by norm_num),
        k 10800 (by norm_num), k 21600 (by norm_num), k 43200 (by norm_num)]
    have hd : ¬ (x = 86400) := fun h => by rw [h] at h1; linarith
    simp [h1, h2, hd]
  · intro x h1 h2
    norm_num at h1 h2
    have k : ∀ c : ℚ, c < 7603200 → decide (x = c) = false := fun c hc =>
      decide_eq_false (fun h => by rw [h] at h1; linarith)
    simp only [resolution_standard_name, time_to_seconds, seconds_per_unit,
      rat_beq_decide, List.find?]
    norm_num
    rw [k 60 (by norm_num), k 120 (by norm_num), k 300 (by norm_num),
        k 900 (by norm_num), k 1800 (by norm_num), k 3600 (by norm_num),
        k 10800 (by norm_num), k 21600 (by norm_num), k 43200 (by norm_num)]
    have hd : ¬ (x = 86400) := fun h => by rw [h] at h1; linarith
    have hm : ¬ (2419200 ≤ x ∧ x ≤ 2678400) := fun h => by linarith [h.2]
    simp [h1, h2, hd, hm]
  · norm_num [resolution_standard_name, time_to_seconds, seconds_per_unit,
      List.find?, rat_beq_decide]
  · norm_num [resolution_standard_name, time_to_seconds, seconds_per_unit,
      List.find?, rat_beq_decide]
  · norm_num [resolution_standard_name, time_to_seconds, seconds_per_unit,
      List.find?, rat_beq_decide]
  · norm_num [resolution_standard_name, time_to_seconds, seconds_per_unit,
      List.find?, rat_beq_decide]
  · norm_num [resolution_standard_name, time_to_seconds, seconds_per_unit,
      List.find?, rat_beq_decide]
    decide
  · norm_num [resolution_standard_name, time_to_seconds, seconds_per_unit,
      List.find?, rat_beq_decide]
    decide
  · norm_num [resolution_standard_name, time_to_seconds, seconds_per_unit,
      List.find?, rat_beq_decide]
    decide
  · norm_num [resolution_standard_name, time_to_seconds, seconds_per_unit,
      List.find?, rat_beq_decide]
    decide
  · norm_num [resolution_standard_name, time_to_seconds, seconds_per_unit,
      List.find?, rat_beq_decide]
    decide
  · norm_num [resolution_standard_name, time_to_seconds, seconds_per_unit,
      List.find?, rat_beq_decide]
    decide
  · norm_num [resolution_standard_name, time_to_seconds, seconds_per_unit,
      List.find?, rat_beq_decide]
    decide
  · norm_num [resolution_standard_name, time_to_seconds, seconds_per_unit,
      List.find?, rat_beq_decide]
    decide
  · norm_num [resolution_standard_name, time_to_seconds, seconds_per_unit,
      List.find?, rat_beq_decide]
    decide
  · intro x hset hm hs
    simp only [Set.mem_insert_iff, Set.mem_singleton_iff, not_or] at hset
    norm_num at hset hm hs
    obtain ⟨n60, n120, n300, n900, n1800, n3600, n10800, n21600, n43200,
      n86400, ny360, ny365, ny366⟩ := hset
    simp only [resolution_standard_name, time_to_seconds, seconds_per_unit,
      rat_beq_decide, List.find?]
    norm_num
    rw [decide_eq_false n60, decide_eq_false n120, decide_eq_false n300,
        decide_eq_false n900, decide_eq_false n1800, decide_eq_false n3600,
        decide_eq_false n10800, decide_eq_false n21600, decide_eq_false n43200,
        decide_eq_false ny360, decide_eq_false ny365, decide_eq_false ny366]
    have hm2 : ¬(2419200 ≤ x ∧ x ≤ 2678400) := fun hc => by
      have := hm hc.1; linarith [hc.2]
    have hs2 : ¬(7603200 ≤ x ∧ x ≤ 7948800) := fun hc => by
      have := hs hc.1; linarith [hc.2]
    simp [n86400, hm2, hs2]

/-- C8, witness: the interval and default clauses of the theorem
applied at the concrete step sizes 2500000 (a monthly value), 7700000
(a seasonal value) and 100 (an `other` value). -/
theorem c8_witness :
    resolution_standard_name 2500000 = "monthly" ∧
    resolution_standard_name 7700000 = "seasonal" ∧
    resolution_standard_name 100 = "other" := by
  obtain ⟨hmon, hsea, _, _, _, _, _, _, _, _, _, _, _, _, _, hoth⟩ :=
    c8_resolution_standard_name
  refine ⟨hmon 2500000 (by norm_num) (by norm_num),
          hsea 7700000 (by norm_num) (by norm_num),
          hoth 100 ?_ (by norm_num) (by norm_num)⟩
  simp only [Set.mem_insert_iff, Set.mem_singleton_iff, not_or]
  norm_num

/-! ## Claim C6 -/

/-- C6: whenever the time axis carries an explicit `climatology`
attribute, `climatology_bounds_var_name` returns its value in both
strict and non-strict modes; nothing about `ds.variables` is assumed,
so existence of the named variable is not verified. -/
theorem c6_climatology_attribute (ds : CFDs) (tv : TimeVar) (v : String)
    (htv : ds.time_var = some tv)
    (hc : tv.climatology = some v) :
    climatology_bounds_var_name { ds with strict_metadata := true } = .ok (some v) ∧
    climatology_bounds_var_name { ds with strict_metadata := false } = .ok (some v) := by
  constructor <;> simp [climatology_bounds_var_name, htv, hc]

/-- C6, witness: the theorem applied to the dataset whose time axis has
`climatology = "foo"` while no variable named `foo` exists. -/
theorem c6_witness :
    climatology_bounds_var_name { ds_foo with strict_metadata := true } =
      .ok (some "foo") ∧
    climatology_bounds_var_name { ds_foo with strict_metadata := false } =
      .ok (some "foo") :=
  c6_climatology_attribute ds_foo
    { units := "days since 1850-01-01 00:00:00"
      calendar := "standard"
      bounds := none
      climatology := some "foo"
      values := [0]
      dates := [⟨7, 1⟩] } "foo" rfl rfl

/-! ## Claim C1 -/

/-- The dict `.get` of `time_resolution` agrees with the amended table
at every sample count. -/
theorem mym_tables_agree (n : Nat) :
    (mym_tres_list.lookup n).getD "other" = amended_mym_resolution n := by
  unfold amended_mym_resolution mym_tres_list
  by_cases h1 : n = 1
  · subst h1; rfl
  by_cases h4 : n = 4
  · subst h4; rfl
  by_cases h5 : n = 5
  · subst h5; rfl
  by_cases h12 : n = 12
  · subst h12; rfl
  by_cases h13 : n = 13
  · subst h13; rfl
  by_cases h17 : n = 17
  · subst h17; rfl
  simp [List.lookup, beq_eq_false_iff_ne.mpr h1, beq_eq_false_iff_ne.mpr h4,
    beq_eq_false_iff_ne.mpr h5, beq_eq_false_iff_ne.mpr h12,
    beq_eq_false_iff_ne.mpr h13, beq_eq_false_iff_ne.mpr h17]

/-- C1, counterexample: the dataset `ds16` is a multi-year mean with
exactly 16 time samples, but its time resolution is `other`, not the
`monthly,seasonal` demanded by the claimed table (the source dict has
no entry for 16). -/
theorem c1_counterexample :
    is_multi_year_mean ds16 = .ok true ∧
    (ds16.time_var.map (fun tv => tv.values.length)) = some 16 ∧
    time_resolution ds16 = .ok "other" ∧
    spec_mym_resolution 16 = "monthly,seasonal" ∧
    ("other" : String) ≠ "monthly,seasonal" := by
  refine ⟨by decide, by decide, by decide, by decide, by decide⟩

/-- C1, amended: for every dataset classified as a multi-year mean, the
time resolution is derived from the time-sample count via the fixed
table mapping 1 to yearly, 4 to seasonal, 12 to monthly, 5 to
seasonal,yearly, 13 to monthly,yearly and 17 to monthly,seasonal,yearly,
and to other for every other count -- in particular a count of 16,
absent from the table in the source, maps to other. -/
theorem c1_mym_resolution_from_count (ds : CFDs) (tv : TimeVar)
    (htv : ds.time_var = some tv)
    (hmym : is_multi_year_mean ds = .ok true) :
    time_resolution ds = .ok (amended_mym_resolution tv.values.length) := by
  simp [time_resolution, hmym, htv, mym_tables_agree]

/-- C1, witness: the amended theorem applied to the 16-sample
multi-year-mean dataset. -/
theorem c1_witness :
    time_resolution ds16 =
      .ok (amended_mym_resolution (((List.range 16).map
        (fun n => (n : ℚ))).length)) :=
  c1_mym_resolution_from_count ds16
    { units := "days since 1850-01-01 00:00:00"
      calendar := "standard"
      bounds := none
      climatology := some "climatology_bnds"
      values := (List.range 16).map (fun n => (n : ℚ))
      dates := [] } rfl (by decide)

/-! ## Claim C7 -/

/-- Twelve samples on day 14, 15 or 16 of months 1 through 12, in
order, pass the monthly date-pattern check. -/
theorem run_checks_monthly (a1 a2 a3 a4 a5 a6 a7 a8 a9 a10 a11 a12 : ℕ)
    (h1 : a1 = 14 ∨ a1 = 15 ∨ a1 = 16) (h2 : a2 = 14 ∨ a2 = 15 ∨ a2 = 16)
    (h3 : a3 = 14 ∨ a3 = 15 ∨ a3 = 16) (h4 : a4 = 14 ∨ a4 = 15 ∨ a4 = 16)
    (h5 : a5 = 14 ∨ a5 = 15 ∨ a5 = 16) (h6 : a6 = 14 ∨ a6 = 15 ∨ a6 = 16)
    (h7 : a7 = 14 ∨ a7 = 15 ∨ a7 = 16) (h8 : a8 = 14 ∨ a8 = 15 ∨ a8 = 16)
    (h9 : a9 = 14 ∨ a9 = 15 ∨ a9 = 16) (h10 : a10 = 14 ∨ a10 = 15 ∨ a10 = 16)
    (h11 : a11 = 14 ∨ a11 = 15 ∨ a11 = 16)
    (h12 : a12 = 14 ∨ a12 = 15 ∨ a12 = 16) :
    run_checks [CKind.monthly]
      [⟨1, a1⟩, ⟨2, a2⟩, ⟨3, a3⟩, ⟨4, a4⟩, ⟨5, a5⟩, ⟨6, a6⟩,
       ⟨7, a7⟩, ⟨8, a8⟩, ⟨9, a9⟩, ⟨10, a10⟩, ⟨11, a11⟩, ⟨12, a12⟩] = true := by
  simp [run_checks, preds_of, run_preds, month_pred,
    show List.range 12 = [0, 1, 2, 3, 4, 5, 6, 7, 8, 9, 10, 11] from rfl,
    or_assoc, h1, h2, h3, h4, h5, h6, h7, h8, h9, h10, h11, h12]

/-- With no `climatology` and no `bounds` attribute on the time axis
and a parseable units string, the non-strict
`climatology_bounds_var_name` either finds nothing or returns one of
the hard-coded (non-empty) candidate names. -/
theorem cbvn_no_attrs (ds : CFDs) (tv : TimeVar) (s : TScale)
    (htv : ds.time_var = some tv)
    (hclim : tv.climatology = none)
    (hbnds : tv.bounds = none)
    (hscale : time_scale tv.units = .ok s)
    (hstrict : ds.strict_metadata = false) :
    climatology_bounds_var_name ds = .ok none ∨
    ∃ n, climatology_bounds_var_name ds = .ok (some n) ∧ n.isEmpty = false := by
  unfold climatology_bounds_var_name
  simp only [htv, hclim, hstrict, Bool.false_eq_true, if_false]
  rcases hf1 : List.find? (fun n => (lookupVar ds n).isSome)
      ["climatology_bounds", "climatology_bnds", "climo_bounds", "climo_bnds"]
    with _ | n
  · simp only [hf1, hbnds]
    unfold climo_heuristic_c
    simp only [hscale]
    rcases hf2 : List.find?
        (fun n => match lookupVar ds n with
          | some rows => multi_year_bounds rows s
          | none => false) ["time_bounds", "time_bnds"] with _ | n
    · exact Or.inl rfl
    · right
      refine ⟨n, rfl, ?_⟩
      have hmem := List.mem_of_find?_eq_some hf2
      simp only [List.mem_cons, List.not_mem_nil, or_false] at hmem
      rcases hmem with rfl | rfl <;> decide
  · right
    refine ⟨n, rfl, ?_⟩
    have hmem := List.mem_of_find?_eq_some hf1
    simp only [List.mem_cons, List.not_mem_nil, or_false] at hmem
    rcases hmem with rfl | rfl | rfl | rfl <;> decide

/-- C7, counterexample: a dataset with exactly 12 samples on day 15 of
months 1 through 12 in calendar order and no climatology or bounds
attribute, whose time units string (`milliseconds since ...`) is not of
the form `(days|hours|minutes|seconds) since ...`: non-strict
`is_multi_year_mean` raises `CFValueError` (from the unconditional
`time_scale` call in the final heuristic loop of
`climatology_bounds_var_name`) instead of returning true. -/
theorem c7_counterexample :
    is_multi_year_mean ds_ms = .error .cfValueError ∧
    is_multi_year_mean ds_ms ≠ .ok true := by
  refine ⟨by decide, by decide⟩

/-- C7, amended: for every dataset with exactly 12 time samples whose
dates land, in calendar order, on day 14, 15 or 16 of each of the 12
months, with no climatology or bounds attribute on its time axis, and
whose time units string parses to a time scale, `is_multi_year_mean`
returns true in non-strict mode and false in strict mode.  (Without
the parseable-units proviso the non-strict heuristics raise
`CFValueError`, as the counterexample shows.) -/
theorem c7_monthly_heuristic (ds : CFDs) (tv : TimeVar) (s : TScale)
    (a1 a2 a3 a4 a5 a6 a7 a8 a9 a10 a11 a12 : ℕ)
    (htv : ds.time_var = some tv)
    (hclim : tv.climatology = none)
    (hbnds : tv.bounds = none)
    (hscale : time_scale tv.units = .ok s)
    (hlen : tv.values.length = 12)
    (hdates : tv.dates =
      [⟨1, a1⟩, ⟨2, a2⟩, ⟨3, a3⟩, ⟨4, a4⟩, ⟨5, a5⟩, ⟨6, a6⟩,
       ⟨7, a7⟩, ⟨8, a8⟩, ⟨9, a9⟩, ⟨10, a10⟩, ⟨11, a11⟩, ⟨12, a12⟩])
    (h1 : a1 = 14 ∨ a1 = 15 ∨ a1 = 16) (h2 : a2 = 14 ∨ a2 = 15 ∨ a2 = 16)
    (h3 : a3 = 14 ∨ a3 = 15 ∨ a3 = 16) (h4 : a4 = 14 ∨ a4 = 15 ∨ a4 = 16)
    (h5 : a5 = 14 ∨ a5 = 15 ∨ a5 = 16) (h6 : a6 = 14 ∨ a6 = 15 ∨ a6 = 16)
    (h7 : a7 = 14 ∨ a7 = 15 ∨ a7 = 16) (h8 : a8 = 14 ∨ a8 = 15 ∨ a8 = 16)
    (h9 : a9 = 14 ∨ a9 = 15 ∨ a9 = 16) (h10 : a10 = 14 ∨ a10 = 15 ∨ a10 = 16)
    (h11 : a11 = 14 ∨ a11 = 15 ∨ a11 = 16)
    (h12 : a12 = 14 ∨ a12 = 15 ∨ a12 = 16) :
    is_multi_year_mean { ds with strict_metadata := false } = .ok true ∧
    is_multi_year_mean { ds with strict_metadata := true } = .ok false := by
  constructor
  · have h0 := cbvn_no_attrs
      { strict_metadata := false, time_var := some tv,
        «variables» := ds.«variables», frequency := ds.frequency,
        add_one_month := ds.add_one_month } tv s rfl hclim hbnds hscale rfl
    rcases h0 with h0 | ⟨n, h0, hne⟩
    · unfold is_multi_year_mean
      simp only [htv, h0]
      simp only [opt_str_truthy, Bool.false_eq_true, if_false]
      rw [hlen, hdates]
      simp only [show check_intervals 12 = some [CKind.monthly] from rfl]
      rw [run_checks_monthly a1 a2 a3 a4 a5 a6 a7 a8 a9 a10 a11 a12
        h1 h2 h3 h4 h5 h6 h7 h8 h9 h10 h11 h12]
    · unfold is_multi_year_mean
      simp only [htv, h0]
      simp [opt_str_truthy, hne]
  · unfold is_multi_year_mean climatology_bounds_var_name
    simp only [htv, hclim]
    simp [opt_str_truthy]

/-- C7, witness: the amended theorem applied to the 12-sample
mid-month dataset with `days since` units. -/
theorem c7_witness :
    is_multi_year_mean { ds12 with strict_metadata := false } = .ok true ∧
    is_multi_year_mean { ds12 with strict_metadata := true } = .ok false :=
  c7_monthly_heuristic ds12
    { units := "days since 1850-01-01 00:00:00"
      calendar := "365_day"
      bounds := none
      climatology := none
      values := (List.range 12).map (fun n => (n : ℚ))
      dates := (List.range 12).map (fun m => ⟨m + 1, 15⟩) }
    TScale.days 15 15 15 15 15 15 15 15 15 15 15 15
    rfl rfl rfl (by decide) (by decide) (by decide)
    (by decide) (by decide) (by decide) (by decide) (by decide) (by decide)
    (by decide) (by decide) (by decide) (by decide) (by decide) (by decide)

/-! ## Claim C2 -/

/-- C2: evaluation at the failing input.  On the multi-year-mean
dataset whose climatological bounds rows are stored out of order
(`[(10, 20), (0, 5)]`), the unadjusted extrema are `(10, 5)` -- the
lower bound of the first row and the upper bound of the last row -- and
not `(0, 20)`, the minimum over all lower bounds paired with the
maximum over all upper bounds that both the claim and the docstring of
`time_bounds_extrema` describe. -/
theorem c2_extrema_depend_on_row_order :
    selected_bounds_values ds_unsorted = .ok [(10, 20), (0, 5)] ∧
    time_bounds_extrema ds_unsorted false false = .ok (10, 5) ∧
    time_bounds_extrema ds_unsorted false false ≠ .ok (0, 20) := by
  refine ⟨by decide, by decide, by decide⟩

/-! ## Claim C9 -/

/-- A GCM-derivative-gated predicate is `ok true` exactly when the
project id is CMIP3 or CMIP5 and the residual condition holds. -/
theorem gcm_gated_iff (a : ProductAttrs) (b : Bool) :
    (match is_gcm_derivative a with
      | .error e => (.error e : Except Err Bool)
      | .ok g => .ok (g && b)) = .ok true ↔
      ((a.project_id = "CMIP3" ∨ a.project_id = "CMIP5") ∧ b = true) := by
  unfold is_gcm_derivative metadata_project
  by_cases h : a.project_id = "CMIP3" ∨ a.project_id = "CMIP5" ∨
      a.project_id = "other"
  · rw [if_pos h]
    simp [Bool.and_eq_true, Bool.or_eq_true, beq_iff_eq]
  · rw [if_neg h]
    constructor
    · intro hc; simp at hc
    · rintro ⟨hor, -⟩
      exact absurd (hor.elim Or.inl (fun x => Or.inr (Or.inl x))) h

/-- An `is_other`-gated predicate is `ok true` exactly when the project
id is `other` and the residual condition holds. -/
theorem other_gated_iff (a : ProductAttrs) (b : Bool) :
    (match is_other a with
      | .error e => (.error e : Except Err Bool)
      | .ok o => .ok (o && b)) = .ok true ↔
      (a.project_id = "other" ∧ b = true) := by
  unfold is_other metadata_project
  by_cases h : a.project_id = "CMIP3" ∨ a.project_id = "CMIP5" ∨
      a.project_id = "other"
  · rw [if_pos h]
    simp [Bool.and_eq_true, beq_iff_eq]
  · rw [if_neg h]
    constructor
    · intro hc; simp at hc
    · rintro ⟨ho, -⟩
      exact absurd (Or.inr (Or.inr ho)) h

/-- Characterization of `is_unprocessed_gcm_output`. -/
theorem unproc_true_iff (a : ProductAttrs) :
    is_unprocessed_gcm_output a = .ok true ↔
      ((a.project_id = "CMIP3" ∨ a.project_id = "CMIP5") ∧
       a.product = "output") := by
  rw [show is_unprocessed_gcm_output a =
      (match is_gcm_derivative a with
        | .error e => (.error e : Except Err Bool)
        | .ok g => .ok (g && (a.product == "output"))) from rfl,
    gcm_gated_iff]
  simp [beq_iff_eq]

/-- Characterization of `is_downscaled_output`. -/
theorem downscaled_true_iff (a : ProductAttrs) :
    is_downscaled_output a = .ok true ↔
      ((a.project_id = "CMIP3" ∨ a.project_id = "CMIP5") ∧
       a.product = "downscaled output") := by
  rw [show is_downscaled_output a =
      (match is_gcm_derivative a with
        | .error e => (.error e : Except Err Bool)
        | .ok g => .ok (g && (a.product == "downscaled output"))) from rfl,
    gcm_gated_iff]
  simp [beq_iff_eq]

/-- Characterization of `is_hydromodel_dgcm_output`. -/
theorem hydro_dgcm_true_iff (a : ProductAttrs) :
    is_hydromodel_dgcm_output a = .ok true ↔
      ((a.project_id = "CMIP3" ∨ a.project_id = "CMIP5") ∧
       a.product = "hydrological model output" ∧
       a.forcing_type = "downscaled gcm") := by
  rw [show is_hydromodel_dgcm_output a =
      (match is_gcm_derivative a with
        | .error e => (.error e : Except Err Bool)
        | .ok g => .ok (g && (is_hydromodel_output a &&
            (a.forcing_type == "downscaled gcm")))) from ?_, gcm_gated_iff]
  · simp [is_hydromodel_output, Bool.and_eq_true, beq_iff_eq]
  · unfold is_hydromodel_dgcm_output
    cases is_gcm_derivative a with
    | error e => rfl
    | ok g => simp [Bool.and_assoc]

/-- Characterization of `is_hydromodel_iobs_output`. -/
theorem hydro_iobs_true_iff (a : ProductAttrs) :
    is_hydromodel_iobs_output a = .ok true ↔
      (a.product = "hydrological model output" ∧
       a.forcing_type = "gridded observations") := by
  unfold is_hydromodel_iobs_output is_hydromodel_output
  simp [Bool.and_eq_true, beq_iff_eq]

/-- Characterization of `is_streamflow_model_dgcm_output`. -/
theorem sf_dgcm_true_iff (a : ProductAttrs) :
    is_streamflow_model_dgcm_output a = .ok true ↔
      ((a.project_id = "CMIP3" ∨ a.project_id = "CMIP5") ∧
       a.product = "streamflow model output" ∧
       a.hydromodel__forcing_type = "downscaled gcm") := by
  rw [show is_streamflow_model_dgcm_output a =
      (match is_gcm_derivative a with
        | .error e => (.error e : Except Err Bool)
        | .ok g => .ok (g && (is_streamflow_model_output a &&
            (a.hydromodel__forcing_type == "downscaled gcm")))) from ?_,
    gcm_gated_iff]
  · simp [is_streamflow_model_output, Bool.and_eq_true, beq_iff_eq]
  · unfold is_streamflow_model_dgcm_output
    cases is_gcm_derivative a with
    | error e => rfl
    | ok g => simp [Bool.and_assoc]

/-- Characterization of `is_streamflow_model_iobs_output`. -/
theorem sf_iobs_true_iff (a : ProductAttrs) :
    is_streamflow_model_iobs_output a = .ok true ↔
      (a.product = "streamflow model output" ∧
       a.hydromodel__forcing_type = "gridded observations") := by
  unfold is_streamflow_model_iobs_output is_streamflow_model_output
  simp [Bool.and_eq_true, beq_iff_eq]

/-- Characterization of `is_climdex_gcm_output`. -/
theorem climdex_gcm_true_iff (a : ProductAttrs) :
    is_climdex_gcm_output a = .ok true ↔
      ((a.project_id = "CMIP3" ∨ a.project_id = "CMIP5") ∧
       a.product = "CLIMDEX output" ∧
       a.input_product = "output") := by
  rw [show is_climdex_gcm_output a =
      (match is_gcm_derivative a with
        | .error e => (.error e : Except Err Bool)
        | .ok g => .ok (g && (is_climdex_output a &&
            (a.input_product == "output")))) from ?_, gcm_gated_iff]
  · simp [is_climdex_output, Bool.and_eq_true, beq_iff_eq]
  · unfold is_climdex_gcm_output
    cases is_gcm_derivative a with
    | error e => rfl
    | ok g => simp [Bool.and_assoc]

/-- Characterization of `is_climdex_ds_gcm_output`. -/
theorem climdex_ds_true_iff (a : ProductAttrs) :
    is_climdex_ds_gcm_output a = .ok true ↔
      ((a.project_id = "CMIP3" ∨ a.project_id = "CMIP5") ∧
       a.product = "CLIMDEX output" ∧
       a.input_product = "downscaled output") := by
  rw [show is_climdex_ds_gcm_output a =
      (match is_gcm_derivative a with
        | .error e => (.error e : Except Err Bool)
        | .ok g => .ok (g && (is_climdex_output a &&
            (a.input_product == "downscaled output")))) from ?_, gcm_gated_iff]
  · simp [is_climdex_output, Bool.and_eq_true, beq_iff_eq]
  · unfold is_climdex_ds_gcm_output
    cases is_gcm_derivative a with
    | error e => rfl
    | ok g => simp [Bool.and_assoc]

/-- Characterization of `is_gridded_obs`. -/
theorem gridded_obs_true_iff (a : ProductAttrs) :
    is_gridded_obs a = .ok true ↔
      (a.project_id = "other" ∧ a.product = "gridded observations") := by
  rw [show is_gridded_obs a =
      (match is_other a with
        | .error e => (.error e : Except Err Bool)
        | .ok o => .ok (o && (a.product == "gridded observations"))) from rfl,
    other_gated_iff]
  simp [beq_iff_eq]

/-- C9: for every fixed assignment of the attributes `project_id`,
`product`, `forcing_type`, `hydromodel__forcing_type` and
`input_product`, at most one of the nine product-type predicates
evaluates to true: any two that both return `ok true` are the same
predicate. -/
theorem c9_product_types_mutually_exclusive (a : ProductAttrs)
    (t1 t2 : ProductType)
    (hp1 : product_pred t1 a = .ok true)
    (hp2 : product_pred t2 a = .ok true) :
    t1 = t2 := by
  cases t1 <;> cases t2 <;>
    simp only [product_pred, unproc_true_iff, downscaled_true_iff,
      hydro_dgcm_true_iff, hydro_iobs_true_iff, sf_dgcm_true_iff,
      sf_iobs_true_iff, climdex_gcm_true_iff, climdex_ds_true_iff,
      gridded_obs_true_iff] at hp1 hp2 <;>
    first
      | rfl
      | simp_all

/-- C9, witness: the theorem applied twice to the unprocessed-GCM
attribute assignment. -/
theorem c9_witness :
    product_pred ProductType.unprocessedGcm pa_gcm = .ok true ∧
    ProductType.unprocessedGcm = ProductType.unprocessedGcm :=
  ⟨by decide,
   c9_product_types_mutually_exclusive pa_gcm
     ProductType.unprocessedGcm ProductType.unprocessedGcm
     (by decide) (by decide)⟩

/-! ## Claim C10 -/

/-- `filterMap` is the map of the defaulted values over the kept
elements. -/
theorem filterMap_eq_filter_map (l : List String)
    (f : String → Option String) :
    l.filterMap f =
      (l.filter (fun a => (f a).isSome)).map (fun a => (f a).getD "") := by
  induction l with
  | nil => rfl
  | cons a l ih =>
    cases hfa : f a with
    | none => simp [List.filterMap_cons, List.filter_cons, hfa, ih]
    | some b => simp [List.filterMap_cons, List.filter_cons, hfa, ih]

/-- Pointwise-equal slot extractors build equal component lists. -/
theorem filterMap_congr_mem {l : List String}
    {f g : String → Option String} (h : ∀ a ∈ l, f a = g a) :
    l.filterMap f = l.filterMap g := by
  induction l with
  | nil => rfl
  | cons a l ih =>
    rw [List.filterMap_cons, List.filterMap_cons, h a (List.mem_cons_self a l),
      ih (fun x hx => h x (List.mem_cons_of_mem a hx))]

/-- C10: the filename builder emits exactly the slot-list components
whose values are present and non-None, joined by the separator in the
fixed slot order with the extension appended (it agrees with the
specification-side `buildName_spec`); a component outside the slot list
is omitted, and a component supplied with the None value is omitted; no
other validation is performed. -/
theorem c10_cmor_type_filename :
    (∀ (ext : String) (cv : List (String × Option String)),
      cmor_type_filename ext cv = buildName_spec ext cv) ∧
    (∀ (ext : String) (cv : List (String × Option String))
        (k : String) (v : Option String), k ∉ cmor_component_names →
      cmor_type_filename ext ((k, v) :: cv) = cmor_type_filename ext cv) ∧
    (∀ (ext : String) (cv : List (String × Option String)) (k : String),
        cv.lookup k = none →
      cmor_type_filename ext ((k, none) :: cv) = cmor_type_filename ext cv) := by
  refine ⟨?_, ?_, ?_⟩
  · intro ext cv
    unfold cmor_type_filename buildName_spec
    rw [filterMap_eq_filter_map]
  · intro ext cv k v hk
    unfold cmor_type_filename
    have he : ∀ c ∈ cmor_component_names,
        ((((k, v) :: cv).lookup c).join) = ((cv.lookup c).join) := by
      intro c hc
      have hck : ¬ (c = k) := fun e => hk (e ▸ hc)
      simp [List.lookup, beq_eq_false_iff_ne.mpr hck]
    rw [filterMap_congr_mem he]
  · intro ext cv k hk
    unfold cmor_type_filename
    have he : ∀ c ∈ cmor_component_names,
        ((((k, none) :: cv).lookup c).join) = ((cv.lookup c).join) := by
      intro c _
      by_cases hck : c = k
      · subst hck
        simp [List.lookup, hk]
      · simp [List.lookup, beq_eq_false_iff_ne.mpr hck]
    rw [filterMap_congr_mem he]

/-- C10, witness: the three clauses of the theorem at a concrete
component mapping, a foreign component name and a None-valued slot. -/
theorem c10_witness :
    cmor_type_filename ".nc" cv_sample = buildName_spec ".nc" cv_sample ∧
    cmor_type_filename ".nc" (("project", some "CMIP5") :: cv_sample) =
      cmor_type_filename ".nc" cv_sample ∧
    cmor_type_filename ".nc" (("mip_table", none) :: cv_sample) =
      cmor_type_filename ".nc" cv_sample :=
  ⟨c10_cmor_type_filename.1 ".nc" cv_sample,
   c10_cmor_type_filename.2.1 ".nc" cv_sample "project" (some "CMIP5")
     (by decide),
   c10_cmor_type_filename.2.2 ".nc" cv_sample "mip_table" (by decide)⟩

end Nchelpers
